import Mathlib

/-!
Shallow embedding of the Autha account-profile service core:
the profile read path (`get_user` in `src/database/mod.rs`, the `get`
handler in `src/router/users.rs`, the memcached `set` contract in
`src/database/memcached.rs`) and the profile patch engine (`patch` in
`src/router/users.rs`).

External collaborators (password hashing, format-preserving encryption,
Keccak email hashing, age computation, JSON serialization) are passed in
as oracle records; store and cache round trips are modelled by explicit
inputs (the fetched row, the cache lookup outcome) and by an explicit
list of issued write effects.
-/

set_option maxHeartbeats 1000000

namespace Autha

/-- ASCII digit test, mirroring the `\d` character class of the Rust regexes. -/
def isDigit (c : Char) : Bool := decide (48 ≤ c.toNat) && decide (c.toNat ≤ 57)

/-- ASCII letter test, mirroring `[a-zA-Z]`. -/
def isAlpha (c : Char) : Bool :=
  (decide (97 ≤ c.toNat) && decide (c.toNat ≤ 122)) ||
  (decide (65 ≤ c.toNat) && decide (c.toNat ≤ 90))

/-- The `BIRTH` regex of `src/router/users.rs`:
`^\d{4}-(0[1-9]|1[0-2])-(0[1-9]|[12][0-9]|3[01])$`.
Anchored on both sides: exactly four digits, a dash, a month `01`-`12`,
a dash, a day `01`-`31`.  Note that it does not check per-month calendar
validity (`2010-02-31` matches). -/
def birthMatch (s : String) : Bool :=
  match s.data with
  | [y1, y2, y3, y4, h1, m1, m2, h2, d1, d2] =>
    isDigit y1 && isDigit y2 && isDigit y3 && isDigit y4 &&
    h1 == Char.ofNat 45 && h2 == Char.ofNat 45 &&
    ((m1 == Char.ofNat 48 && decide (49 ≤ m2.toNat) && decide (m2.toNat ≤ 57)) ||
     (m1 == Char.ofNat 49 && decide (48 ≤ m2.toNat) && decide (m2.toNat ≤ 50))) &&
    ((d1 == Char.ofNat 48 && decide (49 ≤ d2.toNat) && decide (d2.toNat ≤ 57)) ||
     ((d1 == Char.ofNat 49 || d1 == Char.ofNat 50) && isDigit d2) ||
     (d1 == Char.ofNat 51 && (d2 == Char.ofNat 48 || d2 == Char.ofNat 49)))
  | _ => false

/-- Character class of the `PASSWORD` regex of `src/router/users.rs`:
`[0-9|*|]` together with the literal specials of the second class. -/
def pswClass (c : Char) : Bool :=
  isDigit c ||
  (".$&+,:;=?@#|<>^*()%!-".data.any (fun d => c == d)) ||
  c == Char.ofNat 39

/-- The `PASSWORD` regex is a one-or-more repetition of the union of the two
character classes above and is unanchored, so it matches exactly when the
string contains at least one class character. -/
def passwordMatch (s : String) : Bool := s.data.any pswClass

/-- The `EMAIL` regex `.+@.+.([a-zA-Z]{2,7})$` of `src/router/users.rs`,
unanchored at the front, `$`-anchored at the back; `.` matches any
character except a newline.  It matches exactly when some suffix of the
string has the form: one or more non-newline characters, `@`, two or more
non-newline characters, then two to seven ASCII letters ending the string. -/
def emailMatch (s : String) : Bool :=
  let cs := s.data
  let n := cs.length
  (List.range 6).any fun k =>
    let e := k + 2
    decide (e ≤ n) && ((cs.drop (n - e)).all isAlpha) &&
    ((List.range n).any fun i =>
      cs.getD i (Char.ofNat 32) == Char.ofNat 64 &&
      decide (1 ≤ i) &&
      !(cs.getD (i - 1) (Char.ofNat 32) == Char.ofNat 10) &&
      decide (i + 3 ≤ n - e) &&
      (((cs.drop (i + 1)).take (n - e - (i + 1))).all
        (fun c => !(c == Char.ofNat 10))))

/-- Split a character list on the dash character, the counterpart of
the dash split of `birth` in `src/router/users.rs` line 139. -/
def splitOnDash (cs : List Char) : List (List Char) :=
  match cs with
  | [] => [[]]
  | c :: rest =>
    let r := splitOnDash rest
    if c == Char.ofNat 45 then [] :: r
    else
      match r with
      | [] => [[c]]
      | h :: t => (c :: h) :: t

/-- Decimal value of a digit string, the counterpart of `parse::<i32>()` /
`parse::<u32>()`; only ever applied to all-digit pieces of a string the
`BIRTH` regex has accepted. -/
def digitsToNat (cs : List Char) : Nat :=
  cs.foldl (fun acc c => acc * 10 + (c.toNat - 48)) 0

/-- Parse a `YYYY-MM-DD` string into (year, month, day), the counterpart of
the dash split of `birth` followed by `parse()` in `src/router/users.rs` line 139.
Only ever applied after `birthMatch` has accepted the string. -/
def parseDate (s : String) : Nat × Nat × Nat :=
  match (splitOnDash s.data).map digitsToNat with
  | [y, m, d] => (y, m, d)
  | _ => (0, 0, 0)

/-- The PATCH request body (`crate::model::body::UserPatch`): the optional
fields read by `patch` in `src/router/users.rs`. -/
structure UserPatch where
  username : Option String
  bio : Option String
  email : Option String
  password : Option String
  phone : Option String
  newpassword : Option String
  birthdate : Option String
  deriving Repr, DecidableEq

/-- The baseline row fetched by `patch` from
`SELECT username, avatar, bio, email, password FROM accounts.users`. -/
structure PatchRow where
  username : String
  avatar : Option String
  bio : Option String
  email : String
  password : String
  deriving Repr, DecidableEq

/-- Oracles for the external collaborators of the patch engine
(`crate::helpers`), plus success flags for the three fallible store writes. -/
structure PatchOracle where
  hash_test : String → String → Bool
  get_age : Nat → Nat → Nat → Int
  encrypt : String → String
  hashEmail : String → String
  hash : String → String
  suspendOk : Bool
  pswWriteOk : Bool
  updateOk : Bool

/-- Store and cache writes issued by the patch engine, in program order. -/
inductive Effect where
  /-- `UPDATE accounts.users SET password = ? WHERE vanity = ?` (users.rs line 170). -/
  | writePassword (hashed : String) (vanity : String)
  /-- `suspend(vanity)` (users.rs line 142). -/
  | suspendWrite (vanity : String)
  /-- `update_user(username, avatar, bio, birthdate, phone, email, vanity)` (users.rs line 179). -/
  | updateUser (username : String) (avatar bio birthdate phone : Option String)
      (email : String) (vanity : String)
  /-- `del(vanity)` — cache invalidation (users.rs line 181). -/
  | cacheDel (vanity : String)
  deriving Repr, DecidableEq

/-- Outcomes of the patch handler. -/
inductive Resp where
  /-- 404 `Unknown user`: the baseline SELECT failed. -/
  | notFound
  /-- 400 with an error message, via `super::err`. -/
  | err (message : String)
  /-- 200 `{error: false, message: "OK"}`. -/
  | ok
  /-- A `cdrs::error::Error` propagated by `?` out of the handler. -/
  | dbErr
  deriving Repr, DecidableEq

/-- Final combined write of the patch engine (users.rs lines 179-193):
one `update_user` call, then cache invalidation on success. -/
def patchFinal (o : PatchOracle) (vanity username : String)
    (bio birthdate : Option String) (email : String) : Resp × List Effect :=
  if o.updateOk then
    (Resp.ok, [Effect.updateUser username none bio birthdate none email vanity,
               Effect.cacheDel vanity])
  else
    (Resp.err "Internal server error",
     [Effect.updateUser username none bio birthdate none email vanity])

/-- `// Change password` step of `patch` (users.rs lines 161-177). -/
def patchNewpassword (o : PatchOracle) (vanity : String) (body : UserPatch)
    (ipv : Bool) (username : String) (bio birthdate : Option String)
    (email : String) : Resp × List Effect :=
  match body.newpassword with
  | some psw =>
    if !ipv || !passwordMatch psw then (Resp.err "Invalid password", [])
    else if o.pswWriteOk then
      let r := patchFinal o vanity username bio birthdate email
      (r.fst, Effect.writePassword (o.hash psw) vanity :: r.snd)
    else (Resp.err "Internal server error", [Effect.writePassword (o.hash psw) vanity])
  | none => patchFinal o vanity username bio birthdate email

/-- `// Change phone` step of `patch` (users.rs lines 150-158): always rejected. -/
def patchPhone (o : PatchOracle) (vanity : String) (body : UserPatch)
    (ipv : Bool) (username : String) (bio birthdate : Option String)
    (email : String) : Resp × List Effect :=
  match body.phone with
  | some _ => (Resp.err "Phones not implemented yet", [])
  | none => patchNewpassword o vanity body ipv username bio birthdate email

/-- `// Change birthdate` step of `patch` (users.rs lines 130-148):
regex check, age computation, under-13 suspension. -/
def patchBirthdate (o : PatchOracle) (vanity : String) (body : UserPatch)
    (ipv : Bool) (username : String) (bio : Option String)
    (email : String) : Resp × List Effect :=
  match body.birthdate with
  | some birth =>
    if !birthMatch birth then (Resp.err "Invalid birthdate", [])
    else
      let d := parseDate birth
      if (13 : Int) > o.get_age d.1 d.2.1 d.2.2 then
        if o.suspendOk then
          (Resp.err "Your account has been suspended: age", [Effect.suspendWrite vanity])
        else (Resp.dbErr, [Effect.suspendWrite vanity])
      else patchPhone o vanity body ipv username bio (some (o.encrypt birth)) email
  | none => patchPhone o vanity body ipv username bio none email

/-- `// Change email` step of `patch` (users.rs lines 113-127):
requires a verified current password and the EMAIL regex. -/
def patchEmail (o : PatchOracle) (vanity : String) (res : PatchRow)
    (body : UserPatch) (ipv : Bool) (username : String)
    (bio : Option String) : Resp × List Effect :=
  match body.email with
  | some nemail =>
    if !ipv || !emailMatch nemail then (Resp.err "Invalid email", [])
    else patchBirthdate o vanity body ipv username bio (o.hashEmail nemail)
  | none => patchBirthdate o vanity body ipv username bio res.email

/-- `// Change bio` step of `patch` (users.rs lines 97-111):
length cap 160 bytes, empty normalizes to absent. -/
def patchBio (o : PatchOracle) (vanity : String) (res : PatchRow)
    (body : UserPatch) (ipv : Bool) (username : String) : Resp × List Effect :=
  match body.bio with
  | some nbio =>
    if 160 < nbio.utf8ByteSize then (Resp.err "Invalid bio", [])
    else if nbio == "" then patchEmail o vanity res body ipv username none
    else patchEmail o vanity res body ipv username (some nbio)
  | none => patchEmail o vanity res body ipv username none

/-- `// Change username` step of `patch` (users.rs lines 83-95):
byte length must be strictly below 16. -/
def patchUsername (o : PatchOracle) (vanity : String) (res : PatchRow)
    (body : UserPatch) (ipv : Bool) : Resp × List Effect :=
  match body.username with
  | some nusername =>
    if 16 ≤ nusername.utf8ByteSize then (Resp.err "Invalid username", [])
    else patchBio o vanity res body ipv nusername
  | none => patchBio o vanity res body ipv res.username

/-- The PATCH handler `patch` of `src/router/users.rs`.  `row` is the result
of the baseline SELECT (`none` models the `Err` branch returning 404);
the returned list records the issued store/cache writes in program order. -/
def patch (o : PatchOracle) (vanity : String) (row : Option PatchRow)
    (body : UserPatch) : Resp × List Effect :=
  match row with
  | none => (Resp.notFound, [])
  | some res =>
    match body.password with
    | some psw =>
      if o.hash_test res.password psw then patchUsername o vanity res body true
      else (Resp.err "Invalid password", [])
    | none => patchUsername o vanity res body false

/-- One row of the `accounts.users` table as the patch-side writes see it. -/
structure DbRecord where
  username : String
  avatar : Option String
  bio : Option String
  birthdate : Option String
  phone : Option String
  email : String
  password : String
  deleted : Bool
  deriving Repr, DecidableEq

/-- Modelled from the spec: the combined write `update_user` is not under
`src/`; per §4.2 step 8 it carries the resolved `username`, `avatar`, `bio`,
`phone`, `email` as given, and `birthdate` "ciphertext or unchanged" — the
stored birthdate is kept when the patch resolved it to `none`. -/
def applyUpdateUser (username : String) (avatar bio birthdate phone : Option String)
    (email : String) (rec : DbRecord) : DbRecord :=
  { rec with
    username := username
    avatar := avatar
    bio := bio
    birthdate := match birthdate with | some c => some c | none => rec.birthdate
    phone := phone
    email := email }

/-- Interpretation of one issued effect on the store.  The `suspendWrite`
semantics is modelled from the spec (`suspend` is not under `src/`): §4.2
step 5, a suspension write sets `deleted = true` for the identifier.
`cacheDel` touches only the cache, so it is the identity on the store. -/
def applyEffect (e : Effect) (db : String → DbRecord) : String → DbRecord :=
  fun x =>
    match e with
    | Effect.writePassword h v => if x == v then { db x with password := h } else db x
    | Effect.suspendWrite v => if x == v then { db x with deleted := true } else db x
    | Effect.updateUser un av bi bd ph em v =>
        if x == v then applyUpdateUser un av bi bd ph em (db x) else db x
    | Effect.cacheDel _ => db x

/-- Fold a list of effects over the store, in program order. -/
def applyEffects (effs : List Effect) (db : String → DbRecord) : String → DbRecord :=
  effs.foldl (fun d e => applyEffect e d) db

/-- The typed profile `crate::model::user::User` as built by `get_user`
in `src/database/mod.rs`. -/
structure User where
  username : String
  vanity : String
  avatar : Option String
  bio : Option String
  email : Option String
  birthdate : Option String
  deleted : Bool
  flags : Nat
  verified : Bool
  deriving Repr, DecidableEq

/-- One raw row of the store as `get_user` sees it: the columns of
`SELECT username, avatar, bio, deleted, flags, email, birthdate, verified`.
`none` on optional columns models a null column; `deletedBytes` and
`flagsBytes` keep the raw byte views the code decodes. -/
structure CassRow where
  username : String
  avatar : Option String
  bio : Option String
  deletedBytes : List Nat
  flagsBytes : List Nat
  email : String
  birthdate : Option String
  deriving Repr, DecidableEq

/-- Big-endian decode of the first four bytes of the `flags` column
(`u32::from_be_bytes` in `src/database/mod.rs` line 42). -/
def u32be (bs : List Nat) : Nat :=
  match bs with
  | b0 :: b1 :: b2 :: b3 :: _ =>
      (((b0 % 256) * 256 + b1 % 256) * 256 + b2 % 256) * 256 + b3 % 256
  | _ => 0

/-- Outcome of the `mem::get` cache lookup at the top of `get_user`:
a backend error, a hit with the cached string, or a clean miss. -/
inductive CacheResult where
  | cacheErr
  | hit (data : String)
  | miss
  deriving Repr, DecidableEq

/-- Oracles for the read path: format-preserving decryption
(`crypto::fpe_decrypt`) and the serde JSON round trip. -/
structure ReadOracle where
  fpe_decrypt : String → String
  deserialize : String → Option User
  serialize : User → String

/-- The empty placeholder profile returned when neither the `users` nor the
`bots` table has a row (`src/database/mod.rs` lines 22-33). -/
def emptyUser : User :=
  { username := ""
    vanity := ""
    avatar := none
    bio := none
    email := none
    birthdate := none
    deleted := false
    flags := 0
    verified := false }

/-- Column decoding of a found row (`src/database/mod.rs` lines 35-45).
`email` is decrypted only for the self-view (`vanity == requester`);
`birthdate` is decrypted whenever the column is non-null and non-empty,
with no requester check in the code. -/
def decodeRow (o : ReadOracle) (r : CassRow) (vanity requester : String) : User :=
  { username := r.username
    avatar := match r.avatar with
      | none => none
      | some s => if s == "" then none else some s
    bio := match r.bio with
      | none => none
      | some s => if s == "" then none else some s
    email := if vanity == requester then some (o.fpe_decrypt r.email) else none
    birthdate := match r.birthdate with
      | none => none
      | some s => if s == "" then none else some (o.fpe_decrypt s)
    deleted := !(r.deletedBytes == [0])
    flags := u32be r.flagsBytes
    verified := false
    vanity := vanity }

/-- `get_user` of `src/database/mod.rs`.  A cache-backend error propagates
through `?` as `Except.error`; a hit is deserialized (a serde failure also
propagates); a miss falls through to the `users` row, then the `bots` row,
then the empty placeholder. -/
def get_user (o : ReadOracle) (cache : CacheResult)
    (usersRow botsRow : Option CassRow) (vanity requester : String) :
    Except Unit User :=
  match cache with
  | CacheResult.cacheErr => Except.error ()
  | CacheResult.hit data =>
    match o.deserialize data with
    | some u => Except.ok u
    | none => Except.error ()
  | CacheResult.miss =>
    match (match usersRow with | some r => some r | none => botsRow) with
    | none => Except.ok emptyUser
    | some r => Except.ok (decodeRow o r vanity requester)

/-- Cache writes issued by the GET handler. -/
inductive GetEffect where
  | cacheSet (key : String) (value : String) (ttl : Nat)
  deriving Repr, DecidableEq

/-- `MemcacheManager::set` of `src/database/memcached.rs` stores every value
with the hard-coded expiry 300 (lines 70-71). -/
def memSet (key value : String) : GetEffect := GetEffect.cacheSet key value 300

/-- Responses of the GET handler in `src/router/users.rs`. -/
inductive GetResult where
  /-- 404 `Unknown user`. -/
  | unknownUser
  /-- 200 with the serialized profile body. -/
  | okUser (u : User)
  deriving Repr, DecidableEq

/-- The placeholder body returned for a deleted profile
(`src/router/users.rs` lines 33-44). -/
def suspendedPlaceholder (vanity : String) : User :=
  { username := "Account suspended"
    vanity := vanity
    avatar := none
    bio := none
    email := none
    birthdate := none
    deleted := true
    flags := 0
    verified := false }

/-- The GET handler `get` of `src/router/users.rs`: call `get_user`, map a
failure or an empty vanity to 404, a deleted profile to the placeholder, and
otherwise re-`set` the serialized profile into the cache before replying. -/
def get (o : ReadOracle) (cache : CacheResult) (usersRow botsRow : Option CassRow)
    (vanity requester : String) : GetResult × List GetEffect :=
  match get_user o cache usersRow botsRow vanity requester with
  | Except.error _ => (GetResult.unknownUser, [])
  | Except.ok u =>
    if u.vanity == "" then (GetResult.unknownUser, [])
    else if u.deleted then (GetResult.okUser (suspendedPlaceholder vanity), [])
    else (GetResult.okUser u, [memSet vanity (o.serialize u)])

/-! ### Concrete fixtures for witnesses and counterexamples -/

/-- Toy patch oracle for concrete witnesses: fully computable stand-ins for
the helper collaborators, with all store writes succeeding. -/
def oT : PatchOracle :=
  { hash_test := fun stored cand => stored == cand
    get_age := fun y _ _ => (2024 : Int) - (y : Int)
    encrypt := fun s => "enc:" ++ s
    hashEmail := fun s => "keccak:" ++ s
    hash := fun s => "argon:" ++ s
    suspendOk := true
    pswWriteOk := true
    updateOk := true }

/-- A concrete baseline row for the patch engine. -/
def rowT : PatchRow :=
  { username := "alice"
    avatar := none
    bio := some "hi"
    email := "EHASH"
    password := "pw" }

/-- A concrete store state: the same record under every vanity. -/
def dbT : String → DbRecord := fun _ =>
  { username := "alice"
    avatar := none
    bio := some "hi"
    birthdate := some "CIPHER"
    phone := none
    email := "EHASH"
    password := "pw"
    deleted := false }

/-- A concrete cached profile for the read path. -/
def uT : User :=
  { username := "alice"
    vanity := "alice"
    avatar := none
    bio := none
    email := none
    birthdate := none
    deleted := false
    flags := 7
    verified := false }

/-- Toy read oracle for concrete witnesses. -/
def oR : ReadOracle :=
  { fpe_decrypt := fun s => "dec:" ++ s
    deserialize := fun s => if s == "CACHED" then some uT else none
    serialize := fun u => u.username ++ "|" ++ u.vanity }

/-- A concrete raw store row for the read path. -/
def rowR : CassRow :=
  { username := "alice"
    avatar := some ""
    bio := some "b"
    deletedBytes := [0]
    flagsBytes := [0, 0, 0, 7]
    email := "EMAILCT"
    birthdate := some "BDCT" }

/-! ### Stage lemmas: reaching a given validation step of `patch` -/

/-- If any supplied username is short enough, the username step adopts it and
continues to the bio step. -/
theorem reachU (o : PatchOracle) (v : String) (res : PatchRow) (body : UserPatch)
    (ipv : Bool) (hun : ∀ u, body.username = some u → u.utf8ByteSize < 16) :
    ∃ un, patchUsername o v res body ipv = patchBio o v res body ipv un := by
  cases hu : body.username with
  | none => exact ⟨res.username, by simp [patchUsername, hu]⟩
  | some u =>
    refine ⟨u, ?_⟩
    have h := hun u hu
    simp only [patchUsername, hu]
    rw [if_neg (by omega)]

/-- If any supplied bio is short enough, the bio step adopts it and continues
to the email step. -/
theorem reachB (o : PatchOracle) (v : String) (res : PatchRow) (body : UserPatch)
    (ipv : Bool) (un : String)
    (hbio : ∀ b, body.bio = some b → b.utf8ByteSize ≤ 160) :
    ∃ bi, patchBio o v res body ipv un = patchEmail o v res body ipv un bi := by
  cases hb : body.bio with
  | none => exact ⟨none, by simp [patchBio, hb]⟩
  | some b =>
    have h := hbio b hb
    by_cases hempty : (b == "") = true
    · refine ⟨none, ?_⟩
      simp only [patchBio, hb]
      rw [if_neg (by omega), if_pos hempty]
    · refine ⟨some b, ?_⟩
      simp only [patchBio, hb]
      rw [if_neg (by omega), if_neg hempty]

/-- If any supplied email passes the re-auth/syntax gate, the email step
continues to the birthdate step. -/
theorem reachE (o : PatchOracle) (v : String) (res : PatchRow) (body : UserPatch)
    (ipv : Bool) (un : String) (bi : Option String)
    (hem : ∀ e, body.email = some e → (!ipv || !emailMatch e) = false) :
    ∃ em, patchEmail o v res body ipv un bi = patchBirthdate o v body ipv un bi em := by
  cases he : body.email with
  | none => exact ⟨res.email, by simp [patchEmail, he]⟩
  | some e =>
    refine ⟨o.hashEmail e, ?_⟩
    simp only [patchEmail, he]
    rw [if_neg (by simp [hem e he])]

/-- If any supplied birthdate matches the regex and yields age at least 13,
the birthdate step adopts its ciphertext and continues to the phone step. -/
theorem reachD (o : PatchOracle) (v : String) (body : UserPatch)
    (ipv : Bool) (un : String) (bi : Option String) (em : String)
    (hbd : ∀ b, body.birthdate = some b → birthMatch b = true ∧
      13 ≤ o.get_age (parseDate b).1 (parseDate b).2.1 (parseDate b).2.2) :
    ∃ bd, patchBirthdate o v body ipv un bi em = patchPhone o v body ipv un bi bd em := by
  cases hb : body.birthdate with
  | none => exact ⟨none, by simp [patchBirthdate, hb]⟩
  | some b =>
    obtain ⟨h1, h2⟩ := hbd b hb
    refine ⟨some (o.encrypt b), ?_⟩
    simp only [patchBirthdate, hb, h1, Bool.not_true, Bool.false_eq_true, if_false]
    rw [if_neg (by omega)]

/-- Under per-field validity of the password, username, bio and email fields,
`patch` reaches the birthdate step with some resolved intermediate values. -/
theorem patch_reaches_birthdate (o : PatchOracle) (v : String) (res : PatchRow)
    (body : UserPatch)
    (hpw : ∀ p, body.password = some p → o.hash_test res.password p = true)
    (hun : ∀ u, body.username = some u → u.utf8ByteSize < 16)
    (hbio : ∀ b, body.bio = some b → b.utf8ByteSize ≤ 160)
    (hem : ∀ e, body.email = some e →
      body.password.isSome = true ∧ emailMatch e = true) :
    ∃ ipv un bi em,
      patch o v (some res) body = patchBirthdate o v body ipv un bi em := by
  cases hp : body.password with
  | none =>
    obtain ⟨un, h1⟩ := reachU o v res body false hun
    obtain ⟨bi, h2⟩ := reachB o v res body false un hbio
    obtain ⟨em, h3⟩ := reachE o v res body false un bi
      (fun e he => absurd (hem e he).1 (by simp [hp]))
    refine ⟨false, un, bi, em, ?_⟩
    simp only [patch, hp]
    rw [h1, h2, h3]
  | some p =>
    have hps := hpw p hp
    obtain ⟨un, h1⟩ := reachU o v res body true hun
    obtain ⟨bi, h2⟩ := reachB o v res body true un hbio
    obtain ⟨em, h3⟩ := reachE o v res body true un bi
      (fun e he => by simp [(hem e he).2])
    refine ⟨true, un, bi, em, ?_⟩
    simp only [patch, hp, hps, if_true]
    rw [h1, h2, h3]

/-- At the birthdate step, an under-13 (and regex-valid) birthdate issues the
suspension write and short-circuits with the suspension outcome. -/
theorem patchBirthdate_suspends (o : PatchOracle) (v : String) (body : UserPatch)
    (ipv : Bool) (un : String) (bi : Option String) (em : String) (bd : String)
    (hbd : body.birthdate = some bd) (hm : birthMatch bd = true)
    (hage : o.get_age (parseDate bd).1 (parseDate bd).2.1 (parseDate bd).2.2 < 13)
    (hs : o.suspendOk = true) :
    patchBirthdate o v body ipv un bi em =
      (Resp.err "Your account has been suspended: age", [Effect.suspendWrite v]) := by
  simp only [patchBirthdate, hbd, hm, Bool.not_true, Bool.false_eq_true, if_false]
  rw [if_pos (by omega), if_pos hs]

/-! ### Claim theorems -/

/-- C2: for every patch whose birthdate matches the date format and yields a
computed age below 13 — and whose earlier fields (password, username, bio,
email), when present, pass their validations so that the birthdate step is
reached — `patch` issues exactly one store write, the suspension write for the
identifier, returns the suspension outcome, and applies no other pending
field change: interpreting the issued effects on any store state changes the
record only by setting `deleted = true`. -/
theorem C2_underage_birthdate_suspends (o : PatchOracle) (v : String)
    (res : PatchRow) (body : UserPatch) (db : String → DbRecord)
    (hpw : ∀ p, body.password = some p → o.hash_test res.password p = true)
    (hun : ∀ u, body.username = some u → u.utf8ByteSize < 16)
    (hbio : ∀ b, body.bio = some b → b.utf8ByteSize ≤ 160)
    (hem : ∀ e, body.email = some e →
      body.password.isSome = true ∧ emailMatch e = true)
    (bd : String) (hbd : body.birthdate = some bd) (hm : birthMatch bd = true)
    (hage : o.get_age (parseDate bd).1 (parseDate bd).2.1 (parseDate bd).2.2 < 13)
    (hs : o.suspendOk = true) :
    patch o v (some res) body =
      (Resp.err "Your account has been suspended: age", [Effect.suspendWrite v]) ∧
    applyEffects (patch o v (some res) body).snd db v =
      { db v with deleted := true } := by
  obtain ⟨ipv, un, bi, em, hre⟩ := patch_reaches_birthdate o v res body hpw hun hbio hem
  have hsusp := patchBirthdate_suspends o v body ipv un bi em bd hbd hm hage hs
  refine ⟨by rw [hre, hsusp], ?_⟩
  rw [hre, hsusp]
  simp [applyEffects, applyEffect]

/-- C2 witness: a patch carrying only `birthdate = "2023-01-01"`, against the
toy oracle whose age computation gives 1, suspends the concrete account. -/
theorem C2_witness :
    patch oT "alice" (some rowT)
      { username := none, bio := none, email := none, password := none,
        phone := none, newpassword := none, birthdate := some "2023-01-01" } =
      (Resp.err "Your account has been suspended: age",
       [Effect.suspendWrite "alice"]) ∧
    applyEffects (patch oT "alice" (some rowT)
      { username := none, bio := none, email := none, password := none,
        phone := none, newpassword := none, birthdate := some "2023-01-01" }).snd
      dbT "alice" = { dbT "alice" with deleted := true } :=
  C2_underage_birthdate_suspends oT "alice" rowT _ dbT
    (fun _ h => Option.noConfusion h) (fun _ h => Option.noConfusion h)
    (fun _ h => Option.noConfusion h) (fun _ h => Option.noConfusion h)
    "2023-01-01" rfl rfl (by decide) rfl


/-- C3: a patch carrying a username of byte length at least 16 together with
any birthdate value returns the username validation error and issues no store
write and no cache deletion at all, provided any supplied current password
verifies (a failing password would instead abort even earlier, also with no
write). -/
theorem C3_invalid_username_no_write (o : PatchOracle) (v : String)
    (res : PatchRow) (body : UserPatch)
    (hpw : ∀ p, body.password = some p → o.hash_test res.password p = true)
    (u : String) (hu : body.username = some u) (h16 : 16 ≤ u.utf8ByteSize)
    (bd : String) (_hbd : body.birthdate = some bd) :
    patch o v (some res) body = (Resp.err "Invalid username", []) := by
  cases hp : body.password with
  | none =>
    simp only [patch, hp, patchUsername, hu]
    rw [if_pos h16]
  | some p =>
    have hps := hpw p hp
    simp only [patch, hp, hps, if_true, patchUsername, hu]
    rw [if_pos h16]

/-- C3 witness: a 16-byte username together with a valid underage birthdate
yields the username error and an empty effect list. -/
theorem C3_witness :
    patch oT "alice" (some rowT)
      { username := some "aaaaaaaaaaaaaaaa", bio := none, email := none,
        password := none, phone := none, newpassword := none,
        birthdate := some "2023-01-01" } =
      (Resp.err "Invalid username", []) :=
  C3_invalid_username_no_write oT "alice" rowT _
    (fun _ h => Option.noConfusion h) "aaaaaaaaaaaaaaaa" rfl (by decide)
    "2023-01-01" rfl

/-- C5: a patch containing an email field where either no current password is
supplied or the supplied one fails verification returns the password or email
validation error and issues no store write, leaving the stored email hash
unchanged; when no password is supplied, the username and bio fields (when
present) are assumed valid so that the email gate itself is what rejects. -/
theorem C5_email_reauth_gate (o : PatchOracle) (v : String) (res : PatchRow)
    (body : UserPatch) (db : String → DbRecord)
    (e : String) (he : body.email = some e)
    (hun : ∀ u, body.username = some u → u.utf8ByteSize < 16)
    (hbio : ∀ b, body.bio = some b → b.utf8ByteSize ≤ 160)
    (hpw : body.password = none ∨
      ∃ p, body.password = some p ∧ o.hash_test res.password p = false) :
    ((patch o v (some res) body).fst = Resp.err "Invalid password" ∨
     (patch o v (some res) body).fst = Resp.err "Invalid email") ∧
    (patch o v (some res) body).snd = [] ∧
    applyEffects (patch o v (some res) body).snd db v = db v := by
  rcases hpw with hp | ⟨p, hp, hf⟩
  · obtain ⟨un, h1⟩ := reachU o v res body false hun
    obtain ⟨bi, h2⟩ := reachB o v res body false un hbio
    have hpatch : patch o v (some res) body = (Resp.err "Invalid email", []) := by
      simp only [patch, hp]
      rw [h1, h2]
      simp [patchEmail, he]
    rw [hpatch]
    exact ⟨Or.inr rfl, rfl, rfl⟩
  · have hpatch : patch o v (some res) body = (Resp.err "Invalid password", []) := by
      simp only [patch, hp, hf]
      simp
    rw [hpatch]
    exact ⟨Or.inl rfl, rfl, rfl⟩

/-- C5 witness: a patch carrying an email but no current password is rejected
with the email error and leaves the concrete store untouched. -/
theorem C5_witness :
    ((patch oT "alice" (some rowT)
      { username := none, bio := none, email := some "a@b.com",
        password := none, phone := none, newpassword := none,
        birthdate := none }).fst = Resp.err "Invalid password" ∨
     (patch oT "alice" (some rowT)
      { username := none, bio := none, email := some "a@b.com",
        password := none, phone := none, newpassword := none,
        birthdate := none }).fst = Resp.err "Invalid email") ∧
    (patch oT "alice" (some rowT)
      { username := none, bio := none, email := some "a@b.com",
        password := none, phone := none, newpassword := none,
        birthdate := none }).snd = [] ∧
    applyEffects (patch oT "alice" (some rowT)
      { username := none, bio := none, email := some "a@b.com",
        password := none, phone := none, newpassword := none,
        birthdate := none }).snd dbT "alice" = dbT "alice" :=
  C5_email_reauth_gate oT "alice" rowT _ dbT "a@b.com" rfl
    (fun _ h => Option.noConfusion h) (fun _ h => Option.noConfusion h)
    (Or.inl rfl)

/-- C7 counterexample: `2010-02-31` is not a calendar-valid date (February has
no 31st), yet the `BIRTH` regex accepts it and the patch engine proceeds past
the birthdate check to the age computation and the combined write, instead of
returning the birthdate validation error the claim requires. -/
theorem C7_counterexample :
    birthMatch "2010-02-31" = true ∧
    patch oT "v" (some rowT)
      { username := none, bio := none, email := none, password := none,
        phone := none, newpassword := none, birthdate := some "2010-02-31" } =
      (Resp.ok,
       [Effect.updateUser "alice" none none (some "enc:2010-02-31") none "EHASH" "v",
        Effect.cacheDel "v"]) := by
  constructor
  · rfl
  · decide

/-- C7 amended: a patch carrying only a birthdate is rejected with the
birthdate validation error exactly when the string fails the `BIRTH` regex —
anchored `YYYY-MM-DD` with month `01`-`12` and day `01`-`31` — so strings
that are format-valid but not calendar-valid are accepted and proceed to the
age computation. -/
theorem C7_amended (o : PatchOracle) (v : String) (res : PatchRow) (b : String) :
    (patch o v (some res)
      { username := none, bio := none, email := none, password := none,
        phone := none, newpassword := none,
        birthdate := some b }).fst = Resp.err "Invalid birthdate" ↔
    birthMatch b = false := by
  simp only [patch, patchUsername, patchBio, patchEmail, patchBirthdate]
  cases hb : birthMatch b with
  | false => simp [hb]
  | true =>
    simp only [hb, Bool.not_true, Bool.false_eq_true, if_false]
    constructor
    · intro h
      exfalso
      by_cases hage :
          (13 : Int) > o.get_age (parseDate b).1 (parseDate b).2.1 (parseDate b).2.2
      · rw [if_pos hage] at h
        by_cases hs : o.suspendOk = true
        · rw [if_pos hs] at h
          simp at h
        · rw [if_neg hs] at h
          simp at h
      · rw [if_neg hage] at h
        simp only [patchPhone, patchNewpassword] at h
        by_cases hu : o.updateOk = true
        · simp [patchFinal, hu] at h
        · simp [patchFinal, hu] at h
    · intro h
      exact absurd h (by simp)

/-- C8: a patch whose `newpassword` passes the current-password verification
and the strength pattern — with its other fields, when present, passing their
validations and both writes succeeding — issues two separate store writes:
first the immediate write of the new password hash, then the final combined
field write, followed by the cache invalidation. -/
theorem C8_two_password_writes (o : PatchOracle) (v : String) (res : PatchRow)
    (body : UserPatch)
    (p : String) (hp : body.password = some p)
    (hps : o.hash_test res.password p = true)
    (hun : ∀ u, body.username = some u → u.utf8ByteSize < 16)
    (hbio : ∀ b, body.bio = some b → b.utf8ByteSize ≤ 160)
    (hem : ∀ e, body.email = some e → emailMatch e = true)
    (hbd : ∀ b, body.birthdate = some b → birthMatch b = true ∧
      13 ≤ o.get_age (parseDate b).1 (parseDate b).2.1 (parseDate b).2.2)
    (hph : body.phone = none)
    (np : String) (hnp : body.newpassword = some np)
    (hm : passwordMatch np = true)
    (hw1 : o.pswWriteOk = true) (hw2 : o.updateOk = true) :
    ∃ un bi bd em, patch o v (some res) body =
      (Resp.ok,
       [Effect.writePassword (o.hash np) v,
        Effect.updateUser un none bi bd none em v,
        Effect.cacheDel v]) := by
  obtain ⟨un, h1⟩ := reachU o v res body true hun
  obtain ⟨bi, h2⟩ := reachB o v res body true un hbio
  obtain ⟨em, h3⟩ := reachE o v res body true un bi
    (fun e he => by simp [hem e he])
  obtain ⟨bd, h4⟩ := reachD o v body true un bi em hbd
  refine ⟨un, bi, bd, em, ?_⟩
  simp only [patch, hp, hps, if_true]
  rw [h1, h2, h3, h4]
  simp only [patchPhone, hph, patchNewpassword, hnp, hm, Bool.not_true,
    Bool.or_self, Bool.false_eq_true, if_false, hw1, if_true]
  simp [patchFinal, hw2]

/-- C8 witness: a patch carrying the correct current password and a strong new
password issues the password write and then the combined write. -/
theorem C8_witness :
    ∃ un bi bd em, patch oT "alice" (some rowT)
      { username := none, bio := none, email := none, password := some "pw",
        phone := none, newpassword := some "NewPass9", birthdate := none } =
      (Resp.ok,
       [Effect.writePassword (oT.hash "NewPass9") "alice",
        Effect.updateUser un none bi bd none em "alice",
        Effect.cacheDel "alice"]) :=
  C8_two_password_writes oT "alice" rowT _ "pw" rfl rfl
    (fun _ h => Option.noConfusion h) (fun _ h => Option.noConfusion h)
    (fun _ h => Option.noConfusion h) (fun _ h => Option.noConfusion h)
    rfl "NewPass9" rfl (by decide) rfl rfl

/-! ### Frame lemmas: what a successful patch does to bio and birthdate -/

/-- The final combined write stores the resolved bio as given and leaves the
stored birthdate alone when the resolved birthdate is absent. -/
theorem okShapeFinal (o : PatchOracle) (v un : String) (bi bd : Option String)
    (em : String) (db : String → DbRecord)
    (h : (patchFinal o v un bi bd em).fst = Resp.ok) :
    (applyEffects (patchFinal o v un bi bd em).snd db v).bio = bi ∧
    (bd = none →
      (applyEffects (patchFinal o v un bi bd em).snd db v).birthdate =
        (db v).birthdate) := by
  by_cases hu : o.updateOk
  · constructor
    · simp [patchFinal, hu, applyEffects, applyEffect, applyUpdateUser]
    · intro hbd
      subst hbd
      simp [patchFinal, hu, applyEffects, applyEffect, applyUpdateUser]
  · simp [patchFinal, hu] at h

/-- Same through the newpassword step: the optional separate password write
touches neither bio nor birthdate. -/
theorem okShapeN (o : PatchOracle) (v : String) (body : UserPatch) (ipv : Bool)
    (un : String) (bi bd : Option String) (em : String) (db : String → DbRecord)
    (h : (patchNewpassword o v body ipv un bi bd em).fst = Resp.ok) :
    (applyEffects (patchNewpassword o v body ipv un bi bd em).snd db v).bio = bi ∧
    (bd = none →
      (applyEffects (patchNewpassword o v body ipv un bi bd em).snd db v).birthdate =
        (db v).birthdate) := by
  cases hnp : body.newpassword with
  | none =>
    have h2 : (patchFinal o v un bi bd em).fst = Resp.ok := by
      simpa [patchNewpassword, hnp] using h
    have := okShapeFinal o v un bi bd em db h2
    simpa [patchNewpassword, hnp] using this
  | some psw =>
    by_cases hc : (!ipv || !passwordMatch psw) = true
    · simp [patchNewpassword, hnp, hc] at h
    · by_cases hw : o.pswWriteOk
      · have heq : patchNewpassword o v body ipv un bi bd em =
            ((patchFinal o v un bi bd em).fst,
             Effect.writePassword (o.hash psw) v :: (patchFinal o v un bi bd em).snd) := by
          simp only [patchNewpassword, hnp]
          rw [if_neg (by simp [hc]), if_pos hw]
        rw [heq] at h ⊢
        have h2 : (patchFinal o v un bi bd em).fst = Resp.ok := h
        have hrest := okShapeFinal o v un bi bd em
          (applyEffect (Effect.writePassword (o.hash psw) v) db) h2
        have hdb : (applyEffect (Effect.writePassword (o.hash psw) v) db v).birthdate =
            (db v).birthdate := by
          simp [applyEffect]
        constructor
        · simpa [applyEffects] using hrest.1
        · intro hbd
          have := hrest.2 hbd
          rw [hdb] at this
          simpa [applyEffects] using this
      · simp [patchNewpassword, hnp, hc, hw] at h

/-- Same through the phone step. -/
theorem okShapeP (o : PatchOracle) (v : String) (body : UserPatch) (ipv : Bool)
    (un : String) (bi bd : Option String) (em : String) (db : String → DbRecord)
    (h : (patchPhone o v body ipv un bi bd em).fst = Resp.ok) :
    (applyEffects (patchPhone o v body ipv un bi bd em).snd db v).bio = bi ∧
    (bd = none →
      (applyEffects (patchPhone o v body ipv un bi bd em).snd db v).birthdate =
        (db v).birthdate) := by
  cases hph : body.phone with
  | some p => simp [patchPhone, hph] at h
  | none =>
    have := okShapeN o v body ipv un bi bd em db
      (by simpa [patchPhone, hph] using h)
    simpa [patchPhone, hph] using this

/-- Same through the birthdate step: a successful patch that omitted the
birthdate leaves the stored birthdate unchanged. -/
theorem okShapeD (o : PatchOracle) (v : String) (body : UserPatch) (ipv : Bool)
    (un : String) (bi : Option String) (em : String) (db : String → DbRecord)
    (h : (patchBirthdate o v body ipv un bi em).fst = Resp.ok) :
    (applyEffects (patchBirthdate o v body ipv un bi em).snd db v).bio = bi ∧
    (body.birthdate = none →
      (applyEffects (patchBirthdate o v body ipv un bi em).snd db v).birthdate =
        (db v).birthdate) := by
  cases hb : body.birthdate with
  | none =>
    have heq : patchBirthdate o v body ipv un bi em =
        patchPhone o v body ipv un bi none em := by
      simp [patchBirthdate, hb]
    rw [heq] at h ⊢
    have := okShapeP o v body ipv un bi none em db h
    exact ⟨this.1, fun _ => this.2 rfl⟩
  | some b =>
    by_cases hm : birthMatch b = true
    · by_cases hage :
          (13 : Int) > o.get_age (parseDate b).1 (parseDate b).2.1 (parseDate b).2.2
      · by_cases hs : o.suspendOk = true
        · have heq : patchBirthdate o v body ipv un bi em =
              (Resp.err "Your account has been suspended: age",
               [Effect.suspendWrite v]) := by
            simp only [patchBirthdate, hb, hm, Bool.not_true, Bool.false_eq_true,
              if_false]
            rw [if_pos hage, if_pos hs]
          rw [heq] at h
          simp at h
        · have heq : patchBirthdate o v body ipv un bi em =
              (Resp.dbErr, [Effect.suspendWrite v]) := by
            simp only [patchBirthdate, hb, hm, Bool.not_true, Bool.false_eq_true,
              if_false]
            rw [if_pos hage, if_neg hs]
          rw [heq] at h
          simp at h
      · have heq : patchBirthdate o v body ipv un bi em =
            patchPhone o v body ipv un bi (some (o.encrypt b)) em := by
          simp only [patchBirthdate, hb, hm, Bool.not_true, Bool.false_eq_true,
            if_false]
          rw [if_neg hage]
        rw [heq] at h ⊢
        have := okShapeP o v body ipv un bi (some (o.encrypt b)) em db h
        exact ⟨this.1, fun hc => Option.noConfusion hc⟩
    · have heq : patchBirthdate o v body ipv un bi em =
          (Resp.err "Invalid birthdate", []) := by
        simp only [patchBirthdate, hb]
        rw [if_pos (by simp [hm])]
      rw [heq] at h
      simp at h

/-- Same through the email step. -/
theorem okShapeE (o : PatchOracle) (v : String) (res : PatchRow)
    (body : UserPatch) (ipv : Bool) (un : String) (bi : Option String)
    (db : String → DbRecord)
    (h : (patchEmail o v res body ipv un bi).fst = Resp.ok) :
    (applyEffects (patchEmail o v res body ipv un bi).snd db v).bio = bi ∧
    (body.birthdate = none →
      (applyEffects (patchEmail o v res body ipv un bi).snd db v).birthdate =
        (db v).birthdate) := by
  cases he : body.email with
  | none =>
    have heq : patchEmail o v res body ipv un bi =
        patchBirthdate o v body ipv un bi res.email := by
      simp [patchEmail, he]
    rw [heq] at h ⊢
    exact okShapeD o v body ipv un bi res.email db h
  | some e =>
    by_cases hc : (!ipv || !emailMatch e) = true
    · simp [patchEmail, he, hc] at h
    · have heq : patchEmail o v res body ipv un bi =
          patchBirthdate o v body ipv un bi (o.hashEmail e) := by
        simp only [patchEmail, he]
        rw [if_neg (by simp [hc])]
      rw [heq] at h ⊢
      exact okShapeD o v body ipv un bi (o.hashEmail e) db h

/-- Same through the bio step: a successful patch that omitted the bio carries
an absent bio into the combined write. -/
theorem okShapeB (o : PatchOracle) (v : String) (res : PatchRow)
    (body : UserPatch) (ipv : Bool) (un : String) (db : String → DbRecord)
    (h : (patchBio o v res body ipv un).fst = Resp.ok) :
    (body.bio = none →
      (applyEffects (patchBio o v res body ipv un).snd db v).bio = none) ∧
    (body.birthdate = none →
      (applyEffects (patchBio o v res body ipv un).snd db v).birthdate =
        (db v).birthdate) := by
  cases hb : body.bio with
  | none =>
    have heq : patchBio o v res body ipv un =
        patchEmail o v res body ipv un none := by
      simp [patchBio, hb]
    rw [heq] at h ⊢
    have := okShapeE o v res body ipv un none db h
    exact ⟨fun _ => this.1, this.2⟩
  | some b =>
    by_cases h160 : 160 < b.utf8ByteSize
    · have heq : patchBio o v res body ipv un = (Resp.err "Invalid bio", []) := by
        simp only [patchBio, hb]
        rw [if_pos h160]
      rw [heq] at h
      simp at h
    · by_cases hemp : (b == "") = true
      · have heq : patchBio o v res body ipv un =
            patchEmail o v res body ipv un none := by
          simp only [patchBio, hb]
          rw [if_neg h160, if_pos hemp]
        rw [heq] at h ⊢
        have := okShapeE o v res body ipv un none db h
        exact ⟨fun hc => Option.noConfusion hc, this.2⟩
      · have heq : patchBio o v res body ipv un =
            patchEmail o v res body ipv un (some b) := by
          simp only [patchBio, hb]
          rw [if_neg h160, if_neg hemp]
        rw [heq] at h ⊢
        have := okShapeE o v res body ipv un (some b) db h
        exact ⟨fun hc => Option.noConfusion hc, this.2⟩

/-- Same through the username step. -/
theorem okShapeU (o : PatchOracle) (v : String) (res : PatchRow)
    (body : UserPatch) (ipv : Bool) (db : String → DbRecord)
    (h : (patchUsername o v res body ipv).fst = Resp.ok) :
    (body.bio = none →
      (applyEffects (patchUsername o v res body ipv).snd db v).bio = none) ∧
    (body.birthdate = none →
      (applyEffects (patchUsername o v res body ipv).snd db v).birthdate =
        (db v).birthdate) := by
  cases hu : body.username with
  | none =>
    have heq : patchUsername o v res body ipv =
        patchBio o v res body ipv res.username := by
      simp [patchUsername, hu]
    rw [heq] at h ⊢
    exact okShapeB o v res body ipv res.username db h
  | some u =>
    by_cases h16 : 16 ≤ u.utf8ByteSize
    · have heq : patchUsername o v res body ipv = (Resp.err "Invalid username", []) := by
        simp only [patchUsername, hu]
        rw [if_pos h16]
      rw [heq] at h
      simp at h
    · have heq : patchUsername o v res body ipv = patchBio o v res body ipv u := by
        simp only [patchUsername, hu]
        rw [if_neg h16]
      rw [heq] at h ⊢
      exact okShapeB o v res body ipv u db h

/-- A successful patch that omitted bio resolves bio to absent in the combined
write, and one that omitted birthdate leaves the stored birthdate unchanged. -/
theorem patch_ok_frame (o : PatchOracle) (v : String) (res : PatchRow)
    (body : UserPatch) (db : String → DbRecord)
    (h : (patch o v (some res) body).fst = Resp.ok) :
    (body.bio = none →
      (applyEffects (patch o v (some res) body).snd db v).bio = none) ∧
    (body.birthdate = none →
      (applyEffects (patch o v (some res) body).snd db v).birthdate =
        (db v).birthdate) := by
  cases hp : body.password with
  | none =>
    have heq : patch o v (some res) body = patchUsername o v res body false := by
      simp [patch, hp]
    rw [heq] at h ⊢
    exact okShapeU o v res body false db h
  | some p =>
    by_cases hps : o.hash_test res.password p = true
    · have heq : patch o v (some res) body = patchUsername o v res body true := by
        simp [patch, hp, hps]
      rw [heq] at h ⊢
      exact okShapeU o v res body true db h
    · have heq : patch o v (some res) body = (Resp.err "Invalid password", []) := by
        simp only [patch, hp]
        rw [if_neg hps]
      rw [heq] at h
      simp at h

/-- C6: a patch that omits the birthdate field and succeeds leaves the
stored birthdate ciphertext of the record of the identifier unchanged after the
issued writes are applied to any store state. -/
theorem C6_birthdate_unchanged (o : PatchOracle) (v : String) (res : PatchRow)
    (body : UserPatch) (db : String → DbRecord)
    (hbd : body.birthdate = none)
    (hok : (patch o v (some res) body).fst = Resp.ok) :
    (applyEffects (patch o v (some res) body).snd db v).birthdate =
      (db v).birthdate :=
  (patch_ok_frame o v res body db hok).2 hbd

/-- C6 witness: the all-absent patch succeeds against the toy oracle and the
stored birthdate ciphertext survives the combined write. -/
theorem C6_witness :
    (applyEffects (patch oT "alice" (some rowT)
      { username := none, bio := none, email := none, password := none,
        phone := none, newpassword := none, birthdate := none }).snd
      dbT "alice").birthdate = (dbT "alice").birthdate :=
  C6_birthdate_unchanged oT "alice" rowT _ dbT rfl rfl

/-- C9: a patch that omits the bio field and succeeds nevertheless carries
`bio = none` into the combined write, so a previously stored bio is cleared:
after the issued writes, the bio of the record is absent whatever it was before. -/
theorem C9_bio_cleared (o : PatchOracle) (v : String) (res : PatchRow)
    (body : UserPatch) (db : String → DbRecord)
    (hbio : body.bio = none)
    (hok : (patch o v (some res) body).fst = Resp.ok) :
    (applyEffects (patch o v (some res) body).snd db v).bio = none :=
  (patch_ok_frame o v res body db hok).1 hbio

/-- C9 witness: the all-absent patch succeeds against a store whose record
carries a bio, and afterwards the bio of the record is gone. -/
theorem C9_witness :
    (dbT "alice").bio = some "hi" ∧
    (applyEffects (patch oT "alice" (some rowT)
      { username := none, bio := none, email := none, password := none,
        phone := none, newpassword := none, birthdate := none }).snd
      dbT "alice").bio = none :=
  ⟨rfl, C9_bio_cleared oT "alice" rowT _ dbT rfl rfl⟩

/-- C1: the read path gates the decrypted email on `vanity == requester`,
but decrypts the birthdate for every requester.  At this concrete row, a
read by a different requester returns `email = none` yet a decrypted
`birthdate`, contradicting the claim that both PII fields are omitted for
non-self requesters. -/
theorem C1_birthdate_disclosed_to_other_requester :
    ("alice" : String) ≠ "bob" ∧
    get_user oR CacheResult.miss (some rowR) none "alice" "bob" =
      Except.ok (decodeRow oR rowR "alice" "bob") ∧
    (decodeRow oR rowR "alice" "bob").email = none ∧
    (decodeRow oR rowR "alice" "bob").birthdate = some "dec:BDCT" :=
  ⟨by decide, rfl, rfl, rfl⟩

/-- C4 counterexample: with a row present in the store, a cache-backend
failure makes `get_user` return the propagated error instead of falling
through to the store — the same inputs under a clean miss would have
produced the store profile. -/
theorem C4_counterexample :
    get_user oR CacheResult.cacheErr (some rowR) none "alice" "alice" =
      Except.error () ∧
    get_user oR CacheResult.miss (some rowR) none "alice" "alice" =
      Except.ok (decodeRow oR rowR "alice" "alice") :=
  ⟨rfl, rfl⟩

/-- C4 amended: on a cache-backend failure the read path propagates the error
to its caller (fail closed); only a clean cache miss falls through to the
profile store. -/
theorem C4_amended (o : ReadOracle) (usersRow botsRow : Option CassRow)
    (v r : String) :
    get_user o CacheResult.cacheErr usersRow botsRow v r = Except.error () :=
  rfl

/-- C10: whenever `get_user` succeeds with a profile whose vanity is nonempty
and which is not deleted — including when the profile was served from a cache
hit — the GET handler re-writes the serialized profile into the cache with
TTL 300 before replying. -/
theorem C10_cache_refresh (o : ReadOracle) (cache : CacheResult)
    (usersRow botsRow : Option CassRow) (vanity requester : String) (u : User)
    (h : get_user o cache usersRow botsRow vanity requester = Except.ok u)
    (hv : (u.vanity == "") = false) (hd : u.deleted = false) :
    get o cache usersRow botsRow vanity requester =
      (GetResult.okUser u, [GetEffect.cacheSet vanity (o.serialize u) 300]) := by
  simp [get, h, hv, hd, memSet]

/-- C10 witness: a read served from a cache hit still re-sets the cache entry
with TTL 300. -/
theorem C10_witness :
    get oR (CacheResult.hit "CACHED") none none "alice" "bob" =
      (GetResult.okUser uT,
       [GetEffect.cacheSet "alice" (oR.serialize uT) 300]) :=
  C10_cache_refresh oR (CacheResult.hit "CACHED") none none "alice" "bob" uT
    rfl rfl rfl

end Autha
